import Mathlib

/-!
Verification of the Geospatial-Data-Management repository.

This file shallowly embeds the Python business logic of
`src/python/spatial_analysis.py`, `src/python/ml_models.py`,
`src/python/database_integration.py` and `src/python/data_processor.py`
into Lean 4, and proves (or refutes) the frozen claims about it.

Modelling conventions:
* Python floats are modelled as exact rationals (`ℚ`); the claims settled
  here never depend on floating-point rounding error, only on arithmetic
  with wide margins.
* `round(x, n)` (Python 3 / numpy round-half-to-even) is modelled exactly
  by `pyRound`.
* External library calls (geopy's `geodesic`, scikit-learn estimators,
  numpy's `sqrt`) are abstracted as explicit function parameters; every
  piece of control flow, arithmetic and state manipulation written in the
  repository itself is embedded directly.
* Python exceptions are modelled by `Except PyErr`; `PyErr` records the
  exception class and message.  The classes `ModelNotFoundError` /
  `ModelInputError` named by the specification are included as
  constructors so that statements about them can be expressed, even
  though the code never raises them.
-/

/-- Python exception classes relevant to the claims.  The repository's code
only ever raises `Exception` and `ValueError`; `modelNotFoundError` and
`modelInputError` are the distinguished classes named by the specification's
error taxonomy (they do not occur anywhere in the code). -/
inductive PyClass where
  | exception
  | valueError
  | modelNotFoundError
  | modelInputError
  deriving DecidableEq, Repr

/-- A raised Python exception: its class and its message. -/
structure PyErr where
  cls : PyClass
  msg : String
  deriving DecidableEq, Repr

/-- Round-half-to-even on rationals: the semantics of Python's builtin
`round` (and of numpy's rounding) on an exactly representable value. -/
def roundHalfEven (q : ℚ) : ℤ :=
  if q - ⌊q⌋ < 1/2 then ⌊q⌋
  else if 1/2 < q - ⌊q⌋ then ⌊q⌋ + 1
  else if ⌊q⌋ % 2 = 0 then ⌊q⌋ else ⌊q⌋ + 1

/-- `pyRound d q` models Python's `round(q, d)`: round half to even at
`d` decimal digits. -/
def pyRound (d : ℕ) (q : ℚ) : ℚ :=
  (roundHalfEven (q * 10 ^ d) : ℚ) / 10 ^ d

/-- First-match lookup in an association list: the semantics of reading a
Python `dict` that is only ever extended by `setA`. -/
def lookupA {α : Type} (m : List (String × α)) (k : String) : Option α :=
  match m with
  | [] => none
  | (k', v) :: rest => if k' = k then some v else lookupA rest k

/-- Update of an association list at a key: the semantics of
`d[k] = v` on a Python `dict` (subsequent lookups of `k` see `v`). -/
def setA {α : Type} (m : List (String × α)) (k : String) (v : α) :
    List (String × α) :=
  (k, v) :: m

/-- Minimum of a list of rationals, with `0` for the empty list (the code
only takes minima of nonempty lists; `pandas.Series.min`). -/
def listMinD (l : List ℚ) : ℚ :=
  match l with
  | [] => 0
  | x :: xs => xs.foldl min x

/-- Maximum of a list of rationals, with `0` for the empty list. -/
def listMaxD (l : List ℚ) : ℚ :=
  match l with
  | [] => 0
  | x :: xs => xs.foldl max x

/-- `np.mean` of a list of rationals (`0` on the empty list, matching the
guarded uses in the code). -/
def listMean (l : List ℚ) : ℚ :=
  if l.length = 0 then 0 else l.sum / l.length

section SpatialAnalyzer

/-!
Embedding of `SpatialAnalyzer` (src/python/spatial_analysis.py).

`load_data` turns a GeoJSON feature collection into a GeoDataFrame with
derived `centroid_lat` / `centroid_lon` columns.  A loaded feature is
modelled by its attribute columns and its centroid coordinates; the
analyzer's `self.gdf` is `Option (List Feature)` (`none` = nothing
loaded).  The geopy call `geodesic((lat1, lon1), (lat2, lon2)).kilometers`
is abstracted as a parameter `d : ℚ × ℚ → ℚ × ℚ → ℚ` on `(lat, lon)`
pairs.
-/

/-- One row of the analyzer's GeoDataFrame: the per-feature attributes
read by the analysis methods (absent properties are `none`, matching
`row.get(key, default)`), plus the derived centroid coordinates. -/
structure Feature where
  fid : Option ℕ
  name : Option String
  description : Option String
  ftype : Option String
  centroidLon : ℚ
  centroidLat : ℚ
  deriving DecidableEq, Repr

/-- One element of the list returned by `find_nearest_landmarks`
(src/python/spatial_analysis.py lines 94-102; the `geometry` and raw
`properties` entries carry no information beyond the feature itself and
are omitted). -/
structure NearestEntry where
  eid : ℕ
  name : String
  description : String
  etype : String
  distance_km : ℚ
  deriving DecidableEq, Repr

/-- `SpatialAnalyzer.find_nearest_landmarks(lat, lon, n)`
(src/python/spatial_analysis.py lines 68-106): if no data is loaded
return `[]`; otherwise build one entry per row with the rounded geodesic
distance from the query point to the row's centroid, sort by
`distance_km` (Python's stable `list.sort`), and return the first `n`. -/
def findNearestLandmarks (d : ℚ × ℚ → ℚ × ℚ → ℚ)
    (gdf : Option (List Feature)) (lat lon : ℚ) (n : ℕ) :
    List NearestEntry :=
  match gdf with
  | none => []
  | some fs =>
    let distances := fs.enum.map (fun p =>
      { eid := p.2.fid.getD p.1
        name := p.2.name.getD ("Landmark " ++ toString p.1)
        description := p.2.description.getD ""
        etype := p.2.ftype.getD "unknown"
        distance_km :=
          pyRound 2 (d (lat, lon) (p.2.centroidLat, p.2.centroidLon)) })
    (distances.mergeSort (fun a b => a.distance_km ≤ b.distance_km)).take n

/-- Per-cluster statistics reported by `spatial_clustering`
(src/python/spatial_analysis.py lines 154-159). -/
structure ClusterStat where
  count : ℕ
  centroid_lat : ℚ
  centroid_lon : ℚ
  landmarks : List (Option String)
  deriving DecidableEq, Repr

/-- `np.unique` on integer labels: sorted distinct values. -/
def npUnique (l : List ℤ) : List ℤ :=
  l.dedup.mergeSort (fun a b => a ≤ b)

/-- Result of `spatial_clustering` (src/python/spatial_analysis.py
lines 161-166). -/
structure ClusteringResult where
  labels : List ℤ
  cluster_stats : List (ℤ × ClusterStat)
  method : String
  n_clusters : ℕ
  deriving Repr

/-- The per-cluster record of `spatial_clustering`
(src/python/spatial_analysis.py lines 153-159): member count, mean
centroid and member-name list of the rows assigned `cid`. -/
def clusterStatFor (fs : List Feature) (labels : List ℤ) (cid : ℤ) :
    ClusterStat :=
  let members := ((fs.zip labels).filter (fun r => r.2 = cid)).map (·.1)
  { count := members.length
    centroid_lat := listMean (members.map (·.centroidLat))
    centroid_lon := listMean (members.map (·.centroidLon))
    landmarks := members.map (·.name) }

/-- The cluster-statistics computation of
`SpatialAnalyzer.spatial_clustering` (src/python/spatial_analysis.py
lines 145-166), given the label vector produced by the scikit-learn
clusterer (an external call; one label per row).  NOTE: as committed,
line 126 of spatial_analysis.py is a syntax error (an unbalanced bracket
in the construction of `coords`), so the module does not even import;
this definition embeds the evidently intended semantics of the
body that follows that line: `self.gdf['cluster'] = labels`, then for
every unique label except the DBSCAN noise label `-1`, report the member
count, mean centroid and member-name list. -/
def spatialClusteringStats (fs : List Feature) (labels : List ℤ)
    (method : String) : ClusteringResult :=
  let stats := (npUnique labels).filterMap (fun cid =>
    if cid = -1 then none
    else some (cid, clusterStatFor fs labels cid))
  { labels := labels
    cluster_stats := stats
    method := method
    n_clusters := (npUnique labels).length }

/-- `np.arange(lo, hi, s)` for a positive step over exact rationals:
`lo, lo + s, ...`, strictly below `hi`; `⌈(hi - lo) / s⌉` elements. -/
def npArange (lo hi s : ℚ) : List ℚ :=
  if s ≤ 0 then []
  else (List.range (⌈(hi - lo) / s⌉).toNat).map (fun (i : ℕ) => lo + (i : ℚ) * s)

/-- A density grid cell, identified by its lower-left corner (the cell
spans `[lon, lon + s] × [lat, lat + s]`). -/
structure GridCell where
  lon : ℚ
  lat : ℚ
  deriving DecidableEq, Repr

/-- `cell.contains(point)` for a rectangular shapely cell: shapely's
`contains` requires the point to lie in the *interior* of the polygon, so
all four inequalities are strict — a centroid on a cell edge or corner is
in no cell. -/
def cellContains (s : ℚ) (c : GridCell) (f : Feature) : Bool :=
  decide (c.lon < f.centroidLon) && decide (f.centroidLon < c.lon + s) &&
  decide (c.lat < f.centroidLat) && decide (f.centroidLat < c.lat + s)

/-- One element of `density_data` (src/python/spatial_analysis.py
lines 205-213). -/
structure DensityEntry where
  cell_id : ℕ
  cell : GridCell
  landmark_count : ℕ
  density : ℚ
  center_lat : ℚ
  center_lon : ℚ
  deriving DecidableEq, Repr

/-- Result of `density_analysis` (src/python/spatial_analysis.py
lines 215-220). -/
structure DensityResult where
  density_data : List DensityEntry
  max_density : ℚ
  total_cells : ℕ
  occupied_cells : ℕ
  deriving Repr

/-- The grid cells built by `density_analysis`
(src/python/spatial_analysis.py lines 185-195): lower-left corners ranging
over `np.arange` of the centroid bounding box, longitude-major. -/
def densityGridCells (fs : List Feature) (s : ℚ) : List GridCell :=
  let lons := fs.map (·.centroidLon)
  let lats := fs.map (·.centroidLat)
  (npArange (listMinD lons) (listMaxD lons) s).flatMap (fun lo =>
    (npArange (listMinD lats) (listMaxD lats) s).map (fun la =>
      { lon := lo, lat := la }))

/-- The per-cell feature count of `density_analysis`
(src/python/spatial_analysis.py lines 199-203): the number of features
whose centroid the cell strictly contains. -/
def cellCount (fs : List Feature) (s : ℚ) (c : GridCell) : ℕ :=
  (fs.filter (fun f => cellContains s c f)).length

/-- The `density_data` record built for one (indexed) grid cell
(src/python/spatial_analysis.py lines 205-213); `none` when the cell is
empty and therefore omitted. -/
def densityEntryOf (fs : List Feature) (s : ℚ) (p : ℕ × GridCell) :
    Option DensityEntry :=
  if 0 < cellCount fs s p.2 then
    some { cell_id := p.1
           cell := p.2
           landmark_count := cellCount fs s p.2
           density := (cellCount fs s p.2 : ℚ) / (s * s)
           center_lat := p.2.lat + s / 2
           center_lon := p.2.lon + s / 2 }
  else none

/-- `SpatialAnalyzer.density_analysis(grid_size)`
(src/python/spatial_analysis.py lines 168-220) for a loaded, nonempty
collection: tile the centroid bounding box, count the features strictly
inside each cell, and report the cells with positive count. -/
def densityAnalysis (fs : List Feature) (s : ℚ) : DensityResult :=
  let cells := densityGridCells fs s
  let dd := cells.enum.filterMap (densityEntryOf fs s)
  { density_data := dd
    max_density := listMaxD (dd.map (·.density))
    total_cells := cells.length
    occupied_cells := dd.length }

/-- One element of `accessibility_data`
(src/python/spatial_analysis.py lines 258-268). -/
structure AccessEntry where
  landmark_id : ℕ
  name : String
  avg_distance_km : ℚ
  min_distance_km : ℚ
  max_distance_km : ℚ
  avg_travel_time_hours : ℚ
  min_travel_time_hours : ℚ
  max_travel_time_hours : ℚ
  accessibility_score : ℚ
  deriving DecidableEq, Repr

/-- Python's `max(l, key)` / `min(l, key)`: first extremal element,
`none` on the empty list (where Python would raise `ValueError`). -/
def pyMaxByFirst {α : Type} (key : α → ℚ) (l : List α) : Option α :=
  l.foldl (fun acc e =>
    match acc with
    | none => some e
    | some m => if key m < key e then some e else some m) none

/-- Python's `min(l, key)`: first minimal element. -/
def pyMinByFirst {α : Type} (key : α → ℚ) (l : List α) : Option α :=
  l.foldl (fun acc e =>
    match acc with
    | none => some e
    | some m => if key e < key m then some e else some m) none

/-- `SpatialAnalyzer.accessibility_analysis(transport_speed)`
(src/python/spatial_analysis.py lines 222-274), parameterized by the
geopy geodesic distance `d` on `(lat, lon)` pairs: for every landmark,
the distances to all *other* landmarks (index-distinct rows), their
mean/min/max, travel times at the given speed, and the score
`round(1 / (avg + 1), 4)`. -/
def accessibilityData (d : ℚ × ℚ → ℚ × ℚ → ℚ) (speed : ℚ)
    (fs : List Feature) : List AccessEntry :=
  fs.enum.map (fun p =>
    let dists := fs.enum.filterMap (fun q =>
      if p.1 ≠ q.1 then
        some (d (p.2.centroidLat, p.2.centroidLon)
                (q.2.centroidLat, q.2.centroidLon))
      else none)
    let avg := listMean dists
    let dmin := listMinD dists
    let dmax := listMaxD dists
    { landmark_id := p.2.fid.getD p.1
      name := p.2.name.getD ("Landmark " ++ toString p.1)
      avg_distance_km := pyRound 2 avg
      min_distance_km := pyRound 2 dmin
      max_distance_km := pyRound 2 dmax
      avg_travel_time_hours := pyRound 2 (avg / speed)
      min_travel_time_hours := pyRound 2 (dmin / speed)
      max_travel_time_hours := pyRound 2 (dmax / speed)
      accessibility_score := pyRound 4 (1 / (avg + 1)) })

/-- Result of `accessibility_analysis` (src/python/spatial_analysis.py
lines 270-274).  `most_accessible` / `least_accessible` are `none`
exactly when the collection is empty (where the Python `max` / `min`
would raise). -/
structure AccessResult where
  accessibility_data : List AccessEntry
  most_accessible : Option AccessEntry
  least_accessible : Option AccessEntry
  deriving Repr

/-- `SpatialAnalyzer.accessibility_analysis`, full result. -/
def accessibilityAnalysis (d : ℚ × ℚ → ℚ × ℚ → ℚ) (speed : ℚ)
    (fs : List Feature) : AccessResult :=
  let dat := accessibilityData d speed fs
  { accessibility_data := dat
    most_accessible := pyMaxByFirst (·.accessibility_score) dat
    least_accessible := pyMinByFirst (·.accessibility_score) dat }

end SpatialAnalyzer

section MLModels

/-!
Embedding of `SpatialMLPredictor` (src/python/ml_models.py).

The scikit-learn / numpy calls are external; they are abstracted as a
bundle of function parameters (`ExtLibs`).  Everything the repository
itself does — the dispatch, the `'type'`-column precondition, the
exception wrapping, the mutation of `self.models` / `self.scalers` /
`self.encoders` and of the on-disk `models/` directory — is embedded
directly.
-/

/-- Opaque fitted scikit-learn estimator (RandomForest, KMeans, ...). -/
structure SKModel where
  tag : ℕ
  deriving DecidableEq, Repr

/-- Opaque fitted `StandardScaler`. -/
structure SKScaler where
  tag : ℕ
  deriving DecidableEq, Repr

/-- Opaque fitted `LabelEncoder`. -/
structure SKEncoder where
  tag : ℕ
  deriving DecidableEq, Repr

/-- The external numpy / scikit-learn operations invoked by
`SpatialMLPredictor`, abstracted as functions. -/
structure ExtLibs where
  npSqrt : ℚ → ℚ
  fitEncoder : List String → SKEncoder
  encTransform : SKEncoder → List String → List ℕ
  encClasses : SKEncoder → List String
  trainTestSplit : List (List ℚ) → List ℕ →
    List (List ℚ) × List (List ℚ) × List ℕ × List ℕ
  fitScaler : List (List ℚ) → SKScaler
  scalerTransform : SKScaler → List ℚ → List ℚ
  fitClassifier : List (List ℚ) → List ℕ → SKModel
  modelPredict : SKModel → List ℚ → ℚ
  hasPredictProba : SKModel → Bool
  predictProbaMax : SKModel → List ℚ → ℚ
  hasFeatureImportances : SKModel → Bool

/-- The per-row inputs of `_prepare_spatial_features`
(src/python/ml_models.py lines 229-263): the geometry attributes the
feature vector is built from, plus the attribute columns
(`gdf['type']`). -/
structure MLGeom where
  cx : ℚ
  cy : ℚ
  area : ℚ
  glength : ℚ
  b0 : ℚ
  b1 : ℚ
  b2 : ℚ
  b3 : ℚ
  deriving DecidableEq, Repr

/-- One row of the GeoDataFrame handed to `train_model`. -/
structure MLRow where
  geometry : MLGeom
  attrs : List (String × String)
  deriving DecidableEq, Repr

/-- The GeoDataFrame handed to `train_model`: its column set and rows. -/
structure MLFrame where
  columns : List String
  rows : List MLRow
  deriving DecidableEq, Repr

/-- `SpatialMLPredictor._prepare_spatial_features`
(src/python/ml_models.py lines 229-263): per row,
`[centroid.x, centroid.y, area, length, bounds0..3, distance-to-Rome]`
(shapely geometries always expose `centroid`, so the `hasattr` guard is
always taken). -/
def prepareSpatialFeatures (ext : ExtLibs) (gdf : MLFrame) :
    List (List ℚ) :=
  gdf.rows.map (fun r =>
    [r.geometry.cx, r.geometry.cy, r.geometry.area, r.geometry.glength,
     r.geometry.b0, r.geometry.b1, r.geometry.b2, r.geometry.b3,
     ext.npSqrt ((r.geometry.cx - 12.5674 / 1) ^ 2 +
       (r.geometry.cy - 41.8719 / 1) ^ 2)])

/-- The in-process and on-disk state of a `SpatialMLPredictor`:
`self.models`, `self.scalers`, `self.encoders`, and the pickled files in
the `models/` directory that `_load_model` reads. -/
structure PredictorState where
  models : List (String × SKModel)
  scalers : List (String × SKScaler)
  encoders : List (String × SKEncoder)
  diskModels : List (String × SKModel)
  diskScalers : List (String × SKScaler)
  diskEncoders : List (String × SKEncoder)
  deriving DecidableEq, Repr

/-- Result dictionary of `_train_classification_model`
(src/python/ml_models.py lines 218-224). -/
structure TrainResult where
  model_type : String
  training_samples : ℕ
  test_samples : ℕ
  accuracy : ℚ
  classes : List String
  deriving DecidableEq, Repr

/-- `SpatialMLPredictor._train_classification_model`
(src/python/ml_models.py lines 173-227): raises when the `'type'` column
is missing — the inner `try/except` rewraps the `ValueError` as
`Exception("Classification model training failed: ...")` — and otherwise
encodes the labels, splits, scales, fits, stores the artifacts under the
key `"classification"` (in memory and on disk via `joblib.dump`) and
reports accuracy. -/
def trainClassificationModel (ext : ExtLibs) (st : PredictorState)
    (gdf : MLFrame) : Except PyErr TrainResult × PredictorState :=
  let features := prepareSpatialFeatures ext gdf
  if "type" ∈ gdf.columns then
    let target := gdf.rows.map (fun r => (lookupA r.attrs "type").getD "")
    let encoder := ext.fitEncoder target
    let targetEncoded := ext.encTransform encoder target
    let split := ext.trainTestSplit features targetEncoded
    let xTrain := split.1
    let xTest := split.2.1
    let yTrain := split.2.2.1
    let yTest := split.2.2.2
    let scaler := ext.fitScaler xTrain
    let xTrainScaled := xTrain.map (ext.scalerTransform scaler)
    let xTestScaled := xTest.map (ext.scalerTransform scaler)
    let model := ext.fitClassifier xTrainScaled yTrain
    let yPred := xTestScaled.map (fun x => ext.modelPredict model x)
    let hits := ((yPred.zip yTest).filter
      (fun p => p.1 = (p.2 : ℚ))).length
    let accuracy := if yTest.length = 0 then 0
      else (hits : ℚ) / yTest.length
    (Except.ok
      { model_type := "classification"
        training_samples := features.length
        test_samples := xTest.length
        accuracy := accuracy
        classes := ext.encClasses encoder },
     { st with
        models := setA st.models "classification" model
        scalers := setA st.scalers "classification" scaler
        encoders := setA st.encoders "classification" encoder
        diskModels := setA st.diskModels "classification" model
        diskScalers := setA st.diskScalers "classification" scaler
        diskEncoders := setA st.diskEncoders "classification" encoder })
  else
    (Except.error
      ⟨PyClass.exception,
        "Classification model training failed: 'type' column not found for classification"⟩,
     st)

/-- `SpatialMLPredictor.train_model`
(src/python/ml_models.py lines 34-56): dispatch on the model type, with
any exception from the branch rewrapped as
`Exception("Model training failed: ...")`.  The `"accessibility"` and
`"clustering"` branches consist of scikit-learn fitting pipelines whose
behavior the claims do not touch; they are taken as parameters. -/
def trainModel (ext : ExtLibs)
    (accessibilityBranch clusteringBranch :
      PredictorState → MLFrame → Except PyErr TrainResult × PredictorState)
    (st : PredictorState) (gdf : MLFrame) (modelType : String) :
    Except PyErr TrainResult × PredictorState :=
  let branch :=
    if modelType = "accessibility" then accessibilityBranch st gdf
    else if modelType = "clustering" then clusteringBranch st gdf
    else if modelType = "classification" then
      trainClassificationModel ext st gdf
    else
      (Except.error
        ⟨PyClass.valueError, "Unsupported model type: " ++ modelType⟩,
       st)
  match branch with
  | (Except.ok r, st') => (Except.ok r, st')
  | (Except.error e, st') =>
    (Except.error ⟨PyClass.exception, "Model training failed: " ++ e.msg⟩,
     st')

/-- `SpatialMLPredictor._load_model`
(src/python/ml_models.py lines 341-360): copy whichever of the pickled
model / scaler (and, for `"classification"`, encoder) files exist on disk
into the in-process dictionaries. -/
def loadModel (st : PredictorState) (modelType : String) :
    PredictorState :=
  let st1 := match lookupA st.diskModels modelType with
    | some m => { st with models := setA st.models modelType m }
    | none => st
  let st2 := match lookupA st1.diskScalers modelType with
    | some s => { st1 with scalers := setA st1.scalers modelType s }
    | none => st1
  if modelType = "classification" then
    match lookupA st2.diskEncoders modelType with
    | some e => { st2 with encoders := setA st2.encoders modelType e }
    | none => st2
  else st2

/-- Result dictionary of `predict`
(src/python/ml_models.py lines 331-336). -/
structure PredictResult where
  prediction : ℚ
  confidence : ℚ
  model_type : String
  features_used : ℕ
  deriving DecidableEq, Repr

/-- `SpatialMLPredictor.predict(features, model_type)`
(src/python/ml_models.py lines 291-339): if the model is not in memory,
try `_load_model`; if it is still absent, the `ValueError` is rewrapped
by the surrounding `try/except` into the *generic*
`Exception("Prediction failed: Model '<name>' not found or trained")`.
Otherwise scale (if a scaler is stored), predict, and attach the
confidence placeholder. -/
def predict (ext : ExtLibs) (st : PredictorState)
    (features : List ℚ) (modelType : String) :
    Except PyErr PredictResult × PredictorState :=
  let st1 := if (lookupA st.models modelType).isNone
    then loadModel st modelType else st
  match lookupA st1.models modelType with
  | none =>
    (Except.error
      ⟨PyClass.exception,
        "Prediction failed: Model '" ++ modelType ++
          "' not found or trained"⟩,
     st1)
  | some m =>
    let scaled := match lookupA st1.scalers modelType with
      | some sc => ext.scalerTransform sc features
      | none => features
    let conf := if ext.hasPredictProba m then ext.predictProbaMax m scaled
      else if ext.hasFeatureImportances m then 8/10 else 0
    (Except.ok
      { prediction := ext.modelPredict m scaled
        confidence := conf
        model_type := modelType
        features_used := features.length },
     st1)

end MLModels

section DatabaseIntegration

/-!
Embedding of `DatabaseIntegration` (src/python/database_integration.py).

The `geospatial_data` table is a list of rows; `execute_query` for a
`DELETE` / `UPDATE` returns `cursor.rowcount`, the number of rows the
statement touched.  The claims settled here concern a reachable database,
so the connection-failure path of `execute_query` does not arise.
-/

/-- One row of the `geospatial_data` table
(src/python/database_integration.py lines 88-99). -/
structure DBRow where
  rid : ℕ
  name : String
  description : String
  landmark_type : String
  geometry : String
  properties : Option String
  created_at : ℕ
  updated_at : ℕ
  deriving DecidableEq, Repr

/-- `DatabaseIntegration.delete_landmark(landmark_id)`
(src/python/database_integration.py lines 305-322): run
`DELETE FROM geospatial_data WHERE id = %s` and return
`rowcount > 0` together with the resulting table. -/
def deleteLandmark (db : List DBRow) (landmarkId : ℕ) :
    Bool × List DBRow :=
  let remaining := db.filter (fun r => r.rid ≠ landmarkId)
  let rowcount := db.length - remaining.length
  (decide (0 < rowcount), remaining)

/-- The `SET` clause applied by `update_landmark` to a matching row:
each non-`None` argument overwrites its column, and `updated_at` is set
to the current timestamp. -/
def applyUpdate (name description landmark_type geometry_wkt
    properties : Option String) (now : ℕ) (r : DBRow) : DBRow :=
  { r with
    name := name.getD r.name
    description := description.getD r.description
    landmark_type := landmark_type.getD r.landmark_type
    geometry := geometry_wkt.getD r.geometry
    properties := match properties with
      | some p => some p
      | none => r.properties
    updated_at := now }

/-- `DatabaseIntegration.update_landmark(landmark_id, ...)`
(src/python/database_integration.py lines 245-303): collect the
non-`None` fields; if none were given return `False` **without issuing
any query**; otherwise run the `UPDATE ... WHERE id = %s` (touching every
matching row and stamping `updated_at`) and return `rowcount > 0`. -/
def updateLandmark (db : List DBRow) (landmarkId : ℕ)
    (name description landmark_type geometry_wkt properties :
      Option String) (now : ℕ) : Bool × List DBRow :=
  let updateFieldsCount :=
    (if name.isSome then 1 else 0) +
    (if description.isSome then 1 else 0) +
    (if landmark_type.isSome then 1 else 0) +
    (if geometry_wkt.isSome then 1 else 0) +
    (if properties.isSome then (1:ℕ) else 0)
  if updateFieldsCount = 0 then
    (false, db)
  else
    let rowcount := db.countP (fun r => r.rid = landmarkId)
    (decide (0 < rowcount),
     db.map (fun r =>
       if r.rid = landmarkId then
         applyUpdate name description landmark_type geometry_wkt
           properties now r
       else r))

end DatabaseIntegration

section DataProcessor

/-!
Embedding of `DataProcessor.clean_data` (src/python/data_processor.py
lines 183-254).

A raw GeoJSON feature is modelled by its three recognised attribute
columns, its remaining properties, and its geometry.  A geometry is
`none` when missing (`isna`), and otherwise carries its shapely
`is_empty` / `is_valid` flags and a value standing for the shape itself
(used for the `duplicated` test).  `buffer(0)` repairs an invalid shape;
it is modelled as marking the shape valid.
-/

/-- A (possibly invalid) shapely geometry value. -/
structure GeomVal where
  isEmpty : Bool
  isValid : Bool
  shape : ℚ × ℚ
  deriving DecidableEq, Repr

/-- `geometry.buffer(0)`: shapely's standard repair, producing a valid
geometry from an invalid one. -/
def bufferZero (g : GeomVal) : GeomVal :=
  { g with isValid := true }

/-- One raw feature handed to `clean_data`. -/
structure RawFeature where
  name : Option String
  description : Option String
  ftype : Option String
  geom : Option GeomVal
  deriving DecidableEq, Repr

/-- The cleaning report written by `clean_data`
(src/python/data_processor.py lines 198-243). -/
structure CleaningReport where
  original_count : ℕ
  issues_found : List String
  fixes_applied : List String
  final_count : ℕ
  deriving DecidableEq, Repr

/-- Row mask of step 1: `gdf.geometry.isna() | gdf.geometry.is_empty`. -/
def geomNaOrEmpty (f : RawFeature) : Bool :=
  match f.geom with
  | none => true
  | some g => g.isEmpty

/-- Row mask of step 2: `~gdf.geometry.is_valid` (after step 1 every row
has a geometry). -/
def geomInvalid (f : RawFeature) : Bool :=
  match f.geom with
  | none => true
  | some g => !g.isValid

/-- Step 3 of `clean_data`: drop rows whose geometry value equals that of
an earlier row (`gdf.geometry.duplicated()` marks every occurrence after
the first). -/
def dropDupGeoms : List (Option GeomVal) → List RawFeature →
    List RawFeature
  | _, [] => []
  | seen, f :: rest =>
    if f.geom ∈ seen then dropDupGeoms seen rest
    else f :: dropDupGeoms (f.geom :: seen) rest

/-- Step 4 of `clean_data` on one row: `fillna('Unknown')` on the
`name` / `type` / `description` columns, then `.str.strip()` on the
string columns. -/
def cleanAttrs (f : RawFeature) : RawFeature :=
  { f with
    name := some (f.name.getD "Unknown").trim
    description := some (f.description.getD "Unknown").trim
    ftype := some (f.ftype.getD "Unknown").trim }

/-- `DataProcessor.clean_data(data)` (src/python/data_processor.py
lines 183-254): drop missing/empty geometries, repair invalid ones with
`buffer(0)`, drop duplicate geometries, normalize the attribute columns,
and report the original and final row counts. -/
def cleanData (fs : List RawFeature) : List RawFeature × CleaningReport :=
  let g1 := fs.filter (fun f => !geomNaOrEmpty f)
  let issues1 := if fs.any geomNaOrEmpty then
    ["Found " ++ toString (fs.countP geomNaOrEmpty) ++
      " invalid geometries"] else []
  let fixes1 := if fs.any geomNaOrEmpty then
    ["Removed invalid geometries"] else []
  let g2 := g1.map (fun f =>
    if geomInvalid f then { f with geom := f.geom.map bufferZero } else f)
  let issues2 := if g1.any geomInvalid then
    ["Found " ++ toString (g1.countP geomInvalid) ++
      " invalid geometries"] else []
  let fixes2 := if g1.any geomInvalid then
    ["Fixed invalid geometries using buffer(0)"] else []
  let g3 := dropDupGeoms [] g2
  let issues3 := if g3.length ≠ g2.length then
    ["Found " ++ toString (g2.length - g3.length) ++
      " duplicate geometries"] else []
  let fixes3 := if g3.length ≠ g2.length then
    ["Removed duplicate geometries"] else []
  let g4 := g3.map cleanAttrs
  (g4,
   { original_count := fs.length
     issues_found := issues1 ++ issues2 ++ issues3
     fixes_applied := fixes1 ++ fixes2 ++ fixes3
     final_count := g4.length })

end DataProcessor

/-- Sum of the `landmark_count` fields of a density report. -/
def densitySumCounts (l : List DensityEntry) : ℕ :=
  (l.map (·.landmark_count)).sum

/-- Default entry used only to state list-indexing facts. -/
def defaultAccessEntry : AccessEntry :=
  { landmark_id := 0, name := "", avg_distance_km := 0,
    min_distance_km := 0, max_distance_km := 0,
    avg_travel_time_hours := 0, min_travel_time_hours := 0,
    max_travel_time_hours := 0, accessibility_score := 0 }

/-- Concrete feature used by witnesses. -/
def witFeature : Feature :=
  { fid := none, name := some "Colosseum", description := none,
    ftype := none, centroidLon := 12, centroidLat := 41 }

/-- Concrete stand-in distance function used by witnesses. -/
def constDist5 : ℚ × ℚ → ℚ × ℚ → ℚ := fun _ _ => 5

/-- Witness distance function: kilometers along the equator, 111 km per
degree of longitude (a linearization of the geodesic on equatorial
points). -/
def equatorDist : ℚ × ℚ → ℚ × ℚ → ℚ := fun p q => 111 * |p.2 - q.2|

/-- Witness features on the equator at longitudes 0, 1, 2. -/
def witF0 : Feature :=
  { fid := none, name := some "P0", description := none, ftype := none,
    centroidLon := 0, centroidLat := 0 }

/-- Second witness feature. -/
def witF1 : Feature :=
  { fid := none, name := some "P1", description := none, ftype := none,
    centroidLon := 1, centroidLat := 0 }

/-- Third witness feature. -/
def witF2 : Feature :=
  { fid := none, name := some "P2", description := none, ftype := none,
    centroidLon := 2, centroidLat := 0 }

/-- The four quadrant-center points of a 2-by-2-degree grid: the
synthetic configuration named by the claim, with one point in each
quadrant, at `(0.5, 0.5)`, `(1.5, 0.5)`, `(0.5, 1.5)`, `(1.5, 1.5)`
(longitude, latitude). -/
def quadCenters : List Feature :=
  [{ fid := none, name := some "Q1", description := none, ftype := none,
     centroidLon := 1/2, centroidLat := 1/2 },
   { fid := none, name := some "Q2", description := none, ftype := none,
     centroidLon := 3/2, centroidLat := 1/2 },
   { fid := none, name := some "Q3", description := none, ftype := none,
     centroidLon := 1/2, centroidLat := 3/2 },
   { fid := none, name := some "Q4", description := none, ftype := none,
     centroidLon := 3/2, centroidLat := 3/2 }]

/-- A predictor process with nothing trained in memory and an empty
`models/` directory. -/
def emptyPredictor : PredictorState :=
  { models := [], scalers := [], encoders := [],
    diskModels := [], diskScalers := [], diskEncoders := [] }

/-- Trivial instantiation of the external scikit-learn/numpy calls, used
only to exhibit concrete runs. -/
def trivialExt : ExtLibs :=
  { npSqrt := fun _ => 0
    fitEncoder := fun _ => { tag := 0 }
    encTransform := fun _ _ => []
    encClasses := fun _ => []
    trainTestSplit := fun _ _ => ([], [], [], [])
    fitScaler := fun _ => { tag := 0 }
    scalerTransform := fun _ x => x
    fitClassifier := fun _ _ => { tag := 0 }
    modelPredict := fun _ _ => 0
    hasPredictProba := fun _ => false
    predictProbaMax := fun _ _ => 0
    hasFeatureImportances := fun _ => false }

/-- Trivial stand-in for the accessibility / clustering training
branches, used only to exhibit concrete runs of the dispatcher. -/
def trivialBranch :
    PredictorState → MLFrame → Except PyErr TrainResult × PredictorState :=
  fun st _ => (Except.error { cls := PyClass.exception, msg := "unused" }, st)

/-- A frame with a `name` column but no `type` column. -/
def noTypeFrame : MLFrame :=
  { columns := ["name"], rows := [] }

/-- Concrete database row used by witnesses. -/
def witRow : DBRow :=
  { rid := 1, name := "Colosseum", description := "Ancient amphitheater",
    landmark_type := "monument", geometry := "POINT(12.4922 41.8902)",
    properties := none, created_at := 0, updated_at := 0 }

/-! ## General lemmas about the embedded primitives -/

theorem abs_roundHalfEven_sub (q : ℚ) :
    |(roundHalfEven q : ℚ) - q| ≤ 1/2 := by
  have h0 : (⌊q⌋ : ℚ) ≤ q := Int.floor_le q
  have h1 : q < ⌊q⌋ + 1 := Int.lt_floor_add_one q
  unfold roundHalfEven
  split_ifs with hf hg he <;>
    (rw [abs_le]; constructor <;> (push_cast; linarith))

theorem abs_pyRound_sub (d : ℕ) (q : ℚ) :
    |pyRound d q - q| ≤ 1 / (2 * 10 ^ d) := by
  have hp : (0:ℚ) < 10 ^ d := by positivity
  have h := abs_roundHalfEven_sub (q * 10 ^ d)
  have hq : pyRound d q - q =
      ((roundHalfEven (q * 10 ^ d) : ℚ) - q * 10 ^ d) / 10 ^ d := by
    unfold pyRound
    field_simp
    ring
  rw [hq, abs_div, abs_of_pos hp]
  rw [div_le_div_iff₀ hp (by positivity)]
  calc |(roundHalfEven (q * 10 ^ d) : ℚ) - q * 10 ^ d| * (2 * 10 ^ d)
      ≤ (1/2) * (2 * 10 ^ d) := by
        apply mul_le_mul_of_nonneg_right h (by positivity)
    _ = 1 * 10 ^ d := by ring

/-- Rounding at 4 decimals preserves a strict inequality whose gap
exceeds one unit in the last place. -/
theorem pyRound4_lt_of_gap {x y : ℚ} (h : y + 1/10000 < x) :
    pyRound 4 y < pyRound 4 x := by
  have hx := abs_le.mp (abs_pyRound_sub 4 x)
  have hy := abs_le.mp (abs_pyRound_sub 4 y)
  norm_num at hx hy
  linarith [hx.1, hx.2, hy.1, hy.2]

/-- The first `n` elements of a list sorted by `distance_km` are sorted by
`distance_km`. -/
theorem take_mergeSort_sorted_dist (l : List NearestEntry) (n : ℕ) :
    List.Sorted (· ≤ ·)
      (((l.mergeSort (fun a b => a.distance_km ≤ b.distance_km)).take n).map
        (·.distance_km)) := by
  have hs := @List.sorted_mergeSort NearestEntry
    (fun a b => a.distance_km ≤ b.distance_km)
    (fun a b c hab hbc => by
      simp only [decide_eq_true_eq] at *
      exact le_trans hab hbc)
    (fun a b => by
      simp only [Bool.or_eq_true, decide_eq_true_eq]
      exact le_total _ _)
    l
  have ht := List.Pairwise.sublist (List.take_sublist n _) hs
  rw [List.Sorted, List.pairwise_map]
  exact ht.imp (fun h => by simpa using h)

/-- **C1.** For every non-empty feature collection loaded into the
analyzer, every geodesic distance function, query point and limit `n`,
the list returned by `find_nearest_landmarks` is sorted by non-decreasing
`distance_km` and has length `min n (number of features)`. -/
theorem findNearest_sorted_and_length
    (d : ℚ × ℚ → ℚ × ℚ → ℚ) (lat lon : ℚ) (n : ℕ)
    (fs : List Feature) (hne : fs ≠ []) :
    List.Sorted (· ≤ ·)
      ((findNearestLandmarks d (some fs) lat lon n).map (·.distance_km)) ∧
    (findNearestLandmarks d (some fs) lat lon n).length = min n fs.length := by
  constructor
  · exact take_mergeSort_sorted_dist _ n
  · show ((_ : List NearestEntry).mergeSort _ |>.take n).length = _
    rw [List.length_take, List.length_mergeSort, List.length_map,
      List.enum_length]

/-- Witness for C1 at a concrete input: one feature, limit 2. -/
theorem findNearest_sorted_and_length_witness :
    ([witFeature] ≠ []) ∧
    (List.Sorted (· ≤ ·)
      ((findNearestLandmarks constDist5 (some [witFeature]) 0 0 2).map
        (·.distance_km)) ∧
    (findNearestLandmarks constDist5 (some [witFeature]) 0 0 2).length =
      min 2 [witFeature].length) :=
  ⟨by simp,
   findNearest_sorted_and_length constDist5 0 0 2 [witFeature] (by simp)⟩

/-- **C8.** Running the nearest-landmark query against an empty (loaded)
feature collection returns the empty list, for every distance function,
query point and limit — not an error. -/
theorem findNearest_empty_collection
    (d : ℚ × ℚ → ℚ × ℚ → ℚ) (lat lon : ℚ) (n : ℕ) :
    findNearestLandmarks d (some []) lat lon n = [] := by
  simp [findNearestLandmarks]

/-- Reciprocal gap bound used for the accessibility scores: distinct mean
distances in the ranges forced by the 3-point configuration keep the
reciprocals more than one ten-thousandth apart. -/
theorem inv_score_gap {u v : ℚ} (hu0 : 0 < u) (huU : u ≤ 121)
    (hvU : v ≤ 181) (hd : u + 50 ≤ v) :
    v⁻¹ + 1/10000 < u⁻¹ := by
  have hv0 : 0 < v := by linarith
  have huv0 : 0 < u * v := by positivity
  have huv : u * v ≤ 21901 := by nlinarith
  have h1 : u⁻¹ - v⁻¹ = (v - u) / (u * v) := by
    field_simp
  have h2 : (50:ℚ) / (u * v) ≤ (v - u) / (u * v) :=
    (div_le_div_right huv0).mpr (by linarith)
  have h3 : (50:ℚ) / 21901 ≤ 50 / (u * v) :=
    div_le_div_of_nonneg_left (by norm_num) huv0 huv
  have h4 : (1:ℚ)/10000 < 50/21901 := by norm_num
  linarith

/-- **C5.** For a three-feature collection with centroids at longitudes
0, 1, 2 on the equator, and any geodesic distance function that is
symmetric and additive on these collinear equatorial points with a
per-degree distance in the physically valid range `[100, 120]` km
(geopy's WGS84 geodesic gives ≈ 111.3 km), `accessibility_analysis`
assigns the middle feature a strictly larger `accessibility_score`
(`round(1 / (mean distance + 1), 4)`) than either endpoint. -/
theorem accessibility_middle_highest
    (d : ℚ × ℚ → ℚ × ℚ → ℚ) (speed : ℚ) (f0 f1 f2 : Feature)
    (h0x : f0.centroidLon = 0) (h0y : f0.centroidLat = 0)
    (h1x : f1.centroidLon = 1) (h1y : f1.centroidLat = 0)
    (h2x : f2.centroidLon = 2) (h2y : f2.centroidLat = 0)
    (a b : ℚ)
    (hab : d (0,0) (0,1) = a) (hba : d (0,1) (0,0) = a)
    (hbc : d (0,1) (0,2) = b) (hcb : d (0,2) (0,1) = b)
    (hac : d (0,0) (0,2) = a + b) (hca : d (0,2) (0,0) = a + b)
    (ha1 : 100 ≤ a) (ha2 : a ≤ 120) (hb1 : 100 ≤ b) (hb2 : b ≤ 120) :
    ((accessibilityAnalysis d speed [f0, f1, f2]).accessibility_data.getD 0
        defaultAccessEntry).accessibility_score <
      ((accessibilityAnalysis d speed [f0, f1, f2]).accessibility_data.getD 1
        defaultAccessEntry).accessibility_score ∧
    ((accessibilityAnalysis d speed [f0, f1, f2]).accessibility_data.getD 2
        defaultAccessEntry).accessibility_score <
      ((accessibilityAnalysis d speed [f0, f1, f2]).accessibility_data.getD 1
        defaultAccessEntry).accessibility_score := by
  simp only [accessibilityAnalysis, accessibilityData, List.enum,
    List.enumFrom, List.map_cons, List.map_nil, List.filterMap_cons,
    List.filterMap_nil, h0x, h0y, h1x, h1y, h2x, h2y, listMean]
  norm_num
  simp only [Prod.mk_zero_zero] at hab hba hbc hcb hac hca
  rw [hab, hba, hbc, hcb, hac, hca]
  constructor
  · apply pyRound4_lt_of_gap
    refine inv_score_gap ?_ ?_ ?_ ?_ <;> linarith
  · apply pyRound4_lt_of_gap
    refine inv_score_gap ?_ ?_ ?_ ?_ <;> linarith

/-- Witness for C5: the concrete equatorial 3-point configuration with
the 111 km/degree linearized geodesic. -/
theorem accessibility_middle_highest_witness :
    (100 ≤ (111:ℚ) ∧ (111:ℚ) ≤ 120) ∧
    (((accessibilityAnalysis equatorDist 50 [witF0, witF1, witF2]).accessibility_data.getD 0
        defaultAccessEntry).accessibility_score <
      ((accessibilityAnalysis equatorDist 50 [witF0, witF1, witF2]).accessibility_data.getD 1
        defaultAccessEntry).accessibility_score ∧
    ((accessibilityAnalysis equatorDist 50 [witF0, witF1, witF2]).accessibility_data.getD 2
        defaultAccessEntry).accessibility_score <
      ((accessibilityAnalysis equatorDist 50 [witF0, witF1, witF2]).accessibility_data.getD 1
        defaultAccessEntry).accessibility_score) :=
  ⟨⟨by norm_num, by norm_num⟩,
   accessibility_middle_highest equatorDist 50 witF0 witF1 witF2
     rfl rfl rfl rfl rfl rfl 111 111
     (by norm_num [equatorDist]) (by norm_num [equatorDist])
     (by norm_num [equatorDist]) (by norm_num [equatorDist])
     (by norm_num [equatorDist]) (by norm_num [equatorDist])
     (by norm_num) (by norm_num) (by norm_num) (by norm_num)⟩

/-- Sum of a pointwise sum of two `ℕ`-valued maps. -/
theorem sum_map_add_nat {α : Type} (f g : α → ℕ) :
    ∀ l : List α, (l.map (fun x => f x + g x)).sum =
      (l.map f).sum + (l.map g).sum := by
  intro l
  induction l with
  | nil => rfl
  | cons a l ih =>
    simp only [List.map_cons, List.sum_cons, ih]
    omega

/-- `countP` as a sum of indicator values. -/
theorem countP_eq_sum_ite {α : Type} (p : α → Bool) :
    ∀ l : List α,
      l.countP p = (l.map (fun x => if p x then 1 else 0)).sum := by
  intro l
  induction l with
  | nil => rfl
  | cons a l ih =>
    rw [List.countP_cons, List.map_cons, List.sum_cons, ih]
    omega

/-- The all-ones sum over a list is its length. -/
theorem sum_map_one {α : Type} :
    ∀ l : List α, (l.map (fun _ => 1)).sum = l.length := by
  intro l
  induction l with
  | nil => rfl
  | cons a l ih =>
    simp only [List.map_cons, List.sum_cons, List.length_cons, ih]
    omega

/-- Exchange of a double counting sum (Fubini for list `countP`). -/
theorem sum_countP_comm {α β : Type} (P : α → β → Bool) :
    ∀ (as' : List α) (bs : List β),
      (as'.map (fun a => bs.countP (fun b => P a b))).sum =
        (bs.map (fun b => as'.countP (fun a => P a b))).sum := by
  intro as'
  induction as' with
  | nil =>
    intro bs
    induction bs with
    | nil => rfl
    | cons b bs ih => simpa [List.countP_nil] using ih
  | cons a as' ih =>
    intro bs
    rw [List.map_cons, List.sum_cons, ih bs]
    have hcong : bs.map (fun b => (a :: as').countP (fun x => P x b)) =
        bs.map (fun b => as'.countP (fun x => P x b) +
          (if P a b then 1 else 0)) := by
      apply List.map_congr_left
      intro b _
      rw [List.countP_cons]
    rw [hcong, sum_map_add_nat, ← countP_eq_sum_ite]
    have heta : List.countP (P a) bs = List.countP (fun b => P a b) bs := rfl
    omega

/-- A list that is pairwise incompatible for `p` has at most one element
satisfying `p`. -/
theorem countP_le_one_of_pairwise {α : Type} (p : α → Bool) :
    ∀ l : List α,
      l.Pairwise (fun x y => ¬(p x = true ∧ p y = true)) →
        l.countP p ≤ 1 := by
  intro l
  induction l with
  | nil => intro _; simp
  | cons a l ih =>
    intro hp
    obtain ⟨ha, htl⟩ := List.pairwise_cons.mp hp
    rw [List.countP_cons]
    by_cases hpa : p a = true
    · have hzero : l.countP p = 0 := by
        rw [List.countP_eq_zero]
        intro b hb
        intro hpb
        exact ha b hb ⟨hpa, hpb⟩
      simp [hzero, hpa]
    · simp [hpa]
      exact ih htl

/-- Unfolding of the strict-containment test. -/
theorem cellContains_iff {s : ℚ} {c : GridCell} {f : Feature} :
    cellContains s c f = true ↔
      (c.lon < f.centroidLon ∧ f.centroidLon < c.lon + s ∧
       c.lat < f.centroidLat ∧ f.centroidLat < c.lat + s) := by
  simp [cellContains, and_assoc]

/-- Consecutive `np.arange` values are at least one step apart. -/
theorem npArange_pairwise (lo hi s : ℚ) (hs : 0 < s) :
    (npArange lo hi s).Pairwise (fun x y => x + s ≤ y) := by
  rw [npArange, if_neg (not_le.mpr hs)]
  rw [List.pairwise_map]
  apply (List.pairwise_lt_range _).imp
  intro i j hij
  have hij' : (i:ℚ) + 1 ≤ j := by exact_mod_cast hij
  nlinarith [hs.le]

/-- The product grid over two step-separated coordinate lists consists of
pairwise incompatible cells: no feature centroid lies strictly inside two
of them. -/
theorem cells_product_pairwise (s : ℚ) (lats : List ℚ)
    (hlats : lats.Pairwise (fun x y => x + s ≤ y)) :
    ∀ lons : List ℚ, lons.Pairwise (fun x y => x + s ≤ y) →
      (lons.flatMap (fun lo => lats.map (fun la =>
        GridCell.mk lo la))).Pairwise
        (fun c c' => ∀ f : Feature,
          ¬(cellContains s c f = true ∧ cellContains s c' f = true)) := by
  intro lons
  induction lons with
  | nil => intro _; simp
  | cons lo los ih =>
    intro hp
    obtain ⟨hhead, htail⟩ := List.pairwise_cons.mp hp
    rw [List.flatMap_cons, List.pairwise_append]
    refine ⟨?_, ih htail, ?_⟩
    · rw [List.pairwise_map]
      apply hlats.imp
      intro la la' hgap f hcontra
      obtain ⟨h1, h2⟩ := hcontra
      rw [cellContains_iff] at h1 h2
      dsimp only at h1 h2
      obtain ⟨_, _, _, h1d⟩ := h1
      obtain ⟨_, _, h2c, _⟩ := h2
      linarith
    · intro a ha b hb f hcontra
      obtain ⟨la, _, rfl⟩ := List.mem_map.mp ha
      obtain ⟨lo', hlo', hb'⟩ := List.mem_flatMap.mp hb
      obtain ⟨la', _, rfl⟩ := List.mem_map.mp hb'
      obtain ⟨h1, h2⟩ := hcontra
      rw [cellContains_iff] at h1 h2
      dsimp only at h1 h2
      have hgap : lo + s ≤ lo' := hhead lo' hlo'
      obtain ⟨_, h1b, _, _⟩ := h1
      obtain ⟨h2a, _, _, _⟩ := h2
      linarith

/-- The grid cells of `density_analysis` are pairwise incompatible. -/
theorem densityGridCells_pairwise (fs : List Feature) (s : ℚ) (hs : 0 < s) :
    (densityGridCells fs s).Pairwise
      (fun c c' => ∀ f : Feature,
        ¬(cellContains s c f = true ∧ cellContains s c' f = true)) :=
  cells_product_pairwise s _
    (npArange_pairwise _ _ _ hs) _ (npArange_pairwise _ _ _ hs)

/-- The `landmark_count` sum over the reported entries equals the sum of
the per-cell counts over all cells (empty cells contribute zero). -/
theorem sum_landmarkCount_filterMap (fs : List Feature) (s : ℚ) :
    ∀ l : List (ℕ × GridCell),
      densitySumCounts (l.filterMap (densityEntryOf fs s)) =
        (l.map (fun p => cellCount fs s p.2)).sum := by
  intro l
  induction l with
  | nil => rfl
  | cons hd tl ih =>
    rw [List.map_cons, List.sum_cons]
    by_cases h : 0 < cellCount fs s hd.2
    · have : densityEntryOf fs s hd =
          some { cell_id := hd.1
                 cell := hd.2
                 landmark_count := cellCount fs s hd.2
                 density := (cellCount fs s hd.2 : ℚ) / (s * s)
                 center_lat := hd.2.lat + s / 2
                 center_lon := hd.2.lon + s / 2 } := by
        rw [densityEntryOf, if_pos h]
      rw [List.filterMap_cons, this]
      simp only [densitySumCounts, List.map_cons, List.sum_cons] at ih ⊢
      omega
    · have hnone : densityEntryOf fs s hd = none := by
        rw [densityEntryOf, if_neg h]
      rw [List.filterMap_cons, hnone, ih]
      omega

/-- **C2 (amended).** For every nonempty feature collection and positive
grid cell size, the sum of `landmark_count` over the cells reported by
`density_analysis` is at most the total number of features: containment
is strict, every feature lies in at most one cell, and centroids on cell
boundaries (always including the features attaining the bounding-box
minima) are counted in no cell. -/
theorem density_sum_counts_le (fs : List Feature) (s : ℚ) (hs : 0 < s)
    (hne : fs ≠ []) :
    densitySumCounts ((densityAnalysis fs s).density_data) ≤ fs.length := by
  show densitySumCounts
    (((densityGridCells fs s).enum).filterMap (densityEntryOf fs s)) ≤
    fs.length
  rw [sum_landmarkCount_filterMap]
  have henum : (densityGridCells fs s).enum.map
      (fun p => cellCount fs s p.2) =
      (densityGridCells fs s).map (fun c => cellCount fs s c) := by
    conv_rhs => rw [← List.enum_map_snd (densityGridCells fs s)]
    rw [List.map_map]
    rfl
  rw [henum]
  have hcc : ∀ c : GridCell, cellCount fs s c =
      fs.countP (fun f => cellContains s c f) := by
    intro c
    rw [cellCount, List.countP_eq_length_filter]
  have hmap : (densityGridCells fs s).map (fun c => cellCount fs s c) =
      (densityGridCells fs s).map
        (fun c => fs.countP (fun f => cellContains s c f)) := by
    apply List.map_congr_left
    intro c _
    exact hcc c
  rw [hmap, sum_countP_comm]
  calc (fs.map (fun f => (densityGridCells fs s).countP
          (fun c => cellContains s c f))).sum
      ≤ (fs.map (fun _ => 1)).sum := by
        apply List.sum_le_sum
        intro f _
        apply countP_le_one_of_pairwise
        apply (densityGridCells_pairwise fs s hs).imp
        intro c c' h hcontra
        exact h f hcontra
    _ = fs.length := sum_map_one fs

/-- Witness for the amended C2 at a concrete input: the four
quadrant-center points with 1-degree cells. -/
theorem density_sum_counts_le_witness :
    (0:ℚ) < 1 ∧ quadCenters ≠ [] ∧
    densitySumCounts ((densityAnalysis quadCenters 1).density_data) ≤
      quadCenters.length :=
  ⟨by norm_num, by simp [quadCenters],
   density_sum_counts_le quadCenters 1 (by norm_num) (by simp [quadCenters])⟩

/-- **C2 counterexample.** Four points placed at the quadrant centers
`(0.5, 0.5)`, `(1.5, 0.5)`, `(0.5, 1.5)`, `(1.5, 1.5)` of a 2×2-degree
grid, analyzed with 1-degree cells, yield **zero** occupied cells (not
four): the grid is built on the centroid bounding box
`[0.5, 1.5] × [0.5, 1.5]`, producing the single cell `[0.5, 1.5]²`, and
strict (interior) containment excludes all four points, which sit on its
corners.  The per-cell count sum is `0`, not the feature total `4`. -/
theorem density_quadrants_counterexample :
    quadCenters.length = 4 ∧
    (densityAnalysis quadCenters 1).density_data = [] ∧
    densitySumCounts ((densityAnalysis quadCenters 1).density_data) = 0 ∧
    (densityAnalysis quadCenters 1).occupied_cells = 0 := by
  have hr : List.range 1 = [0] := by decide
  have h1 : npArange (1/2) (3/2) 1 = [1/2] := by
    rw [npArange, if_neg (by norm_num : ¬ (1:ℚ) ≤ 0),
      (by norm_num : (⌈(((3:ℚ)/2) - 1/2)/1⌉).toNat = 1), hr]
    norm_num
  have h2 : densityGridCells quadCenters 1 =
      [{ lon := 1/2, lat := 1/2 }] := by
    simp only [densityGridCells, quadCenters, List.map_cons, List.map_nil,
      listMinD, listMaxD]
    norm_num [h1]
  have h3 : densityEntryOf quadCenters 1 (0, { lon := 1/2, lat := 1/2 }) =
      none := by
    norm_num [densityEntryOf, cellCount, quadCenters, cellContains,
      List.filter_cons, List.filter_nil]
  have hdd : (densityAnalysis quadCenters 1).density_data = [] := by
    simp only [densityAnalysis, h2, List.enum, List.enumFrom,
      List.filterMap_cons, List.filterMap_nil, h3]
  have hocc : (densityAnalysis quadCenters 1).occupied_cells = 0 := by
    simp only [densityAnalysis, h2, List.enum, List.enumFrom,
      List.filterMap_cons, List.filterMap_nil, h3, List.length_nil]
  exact ⟨rfl, hdd, by rw [hdd]; rfl, hocc⟩

/-- `_load_model` leaves the in-memory model dictionary untouched when no
pickled model file exists for the requested name. -/
theorem loadModel_models_of_disk_none (st : PredictorState) (mt : String)
    (hd : lookupA st.diskModels mt = none) :
    (loadModel st mt).models = st.models := by
  unfold loadModel
  rw [hd]
  dsimp only
  cases hsc : lookupA st.diskScalers mt <;> dsimp only <;>
    split_ifs with hcl <;>
    first
      | rfl
      | (subst hcl
         cases henc : lookupA st.diskEncoders "classification" <;> rfl)

/-- **C3 (amended).** For every predictor state in which the requested
model name has neither been trained in memory nor pickled on disk,
`predict` fails with the *generic*
`Exception("Prediction failed: Model '<name>' not found or trained")` —
the wrapped `ValueError` — not with a distinguished `ModelNotFoundError`
(no such class exists in the code). -/
theorem predict_missing_model_generic_exception
    (ext : ExtLibs) (st : PredictorState) (features : List ℚ) (mt : String)
    (hm : lookupA st.models mt = none)
    (hd : lookupA st.diskModels mt = none) :
    (predict ext st features mt).1 =
      Except.error
        { cls := PyClass.exception
          msg := "Prediction failed: Model '" ++ mt ++
            "' not found or trained" } := by
  unfold predict
  rw [hm]
  simp only [Option.isNone_none, if_true]
  have hmm : lookupA (loadModel st mt).models mt = none := by
    rw [loadModel_models_of_disk_none st mt hd]
    exact hm
  rw [hmm]

/-- Witness for the amended C3: a fresh process, model name
`"accessibility"`. -/
theorem predict_missing_model_generic_exception_witness :
    lookupA emptyPredictor.models "accessibility" = none ∧
    lookupA emptyPredictor.diskModels "accessibility" = none ∧
    (predict trivialExt emptyPredictor [1, 2] "accessibility").1 =
      Except.error
        { cls := PyClass.exception
          msg := "Prediction failed: Model '" ++ "accessibility" ++
            "' not found or trained" } :=
  ⟨rfl, rfl,
   predict_missing_model_generic_exception trivialExt emptyPredictor
     [1, 2] "accessibility" rfl rfl⟩

/-- **C3 counterexample.** In a fresh process, predicting with the
never-trained name `"accessibility"` raises the generic `Exception`
class, not a distinguished `ModelNotFoundError`. -/
theorem predict_missing_model_counterexample :
    (predict trivialExt emptyPredictor [1, 2] "accessibility").1 =
      Except.error
        { cls := PyClass.exception
          msg := "Prediction failed: Model 'accessibility' not found or trained" } ∧
    PyClass.exception ≠ PyClass.modelNotFoundError := by
  constructor
  · rfl
  · intro h
    cases h

/-- **C4 (amended).** Calling `train_model` with model type
`"classification"` on a frame lacking the `'type'` column fails with the
*generic* wrapped
`Exception("Model training failed: Classification model training failed:
'type' column not found for classification")` — not a distinguished
`ModelInputError` — and returns the predictor state exactly as it was:
models, scalers, encoders and the on-disk artifacts untouched. -/
theorem trainModel_classification_missing_type
    (ext : ExtLibs)
    (ab cb : PredictorState → MLFrame →
      Except PyErr TrainResult × PredictorState)
    (st : PredictorState) (gdf : MLFrame)
    (h : "type" ∉ gdf.columns) :
    trainModel ext ab cb st gdf "classification" =
      (Except.error
        { cls := PyClass.exception
          msg := "Model training failed: " ++
            "Classification model training failed: 'type' column not found for classification" },
       st) := by
  unfold trainModel
  rw [if_neg (by decide : ¬ ("classification" = "accessibility")),
    if_neg (by decide : ¬ ("classification" = "clustering")),
    if_pos rfl]
  unfold trainClassificationModel
  rw [if_neg h]

/-- Witness for the amended C4: a frame with only a `name` column. -/
theorem trainModel_classification_missing_type_witness :
    ("type" ∉ noTypeFrame.columns) ∧
    trainModel trivialExt trivialBranch trivialBranch emptyPredictor
        noTypeFrame "classification" =
      (Except.error
        { cls := PyClass.exception
          msg := "Model training failed: " ++
            "Classification model training failed: 'type' column not found for classification" },
       emptyPredictor) :=
  ⟨by decide,
   trainModel_classification_missing_type trivialExt trivialBranch
     trivialBranch emptyPredictor noTypeFrame (by decide)⟩

/-- **C4 counterexample.** The failure of classification training on a
frame without a `'type'` column carries the generic `Exception` class,
not a distinguished `ModelInputError` (which does not exist in the
code); the state is nevertheless untouched. -/
theorem trainModel_missing_type_counterexample :
    (trainModel trivialExt trivialBranch trivialBranch emptyPredictor
        noTypeFrame "classification").1 =
      Except.error
        { cls := PyClass.exception
          msg := "Model training failed: Classification model training failed: 'type' column not found for classification" } ∧
    (trainModel trivialExt trivialBranch trivialBranch emptyPredictor
        noTypeFrame "classification").2 = emptyPredictor ∧
    PyClass.exception ≠ PyClass.modelInputError := by
  refine ⟨rfl, rfl, ?_⟩
  intro h
  cases h

/-- **C6.** Deleting an identifier that names no existing record reports
zero rows affected — the call returns `False` and the table is
unchanged — rather than raising an error. -/
theorem deleteLandmark_missing_id (db : List DBRow) (i : ℕ)
    (h : ∀ r ∈ db, r.rid ≠ i) :
    deleteLandmark db i = (false, db) := by
  unfold deleteLandmark
  have hfil : db.filter (fun r => r.rid ≠ i) = db :=
    List.filter_eq_self.mpr (fun r hr => by simpa using h r hr)
  rw [hfil]
  simp

/-- Witness for C6: a one-row table, deleting the absent id 2. -/
theorem deleteLandmark_missing_id_witness :
    (∀ r ∈ [witRow], r.rid ≠ 2) ∧
    deleteLandmark [witRow] 2 = (false, [witRow]) :=
  ⟨by intro r hr; simp only [List.mem_singleton] at hr; subst hr; decide,
   deleteLandmark_missing_id [witRow] 2
     (by intro r hr; simp only [List.mem_singleton] at hr; subst hr; decide)⟩

/-- **C9.** `update_landmark` called with every updatable field `None`
returns `False` without issuing any `UPDATE`: the stored rows — every
record, including timestamps — are exactly as before, for every table,
identifier and clock value. -/
theorem updateLandmark_all_none_noop (db : List DBRow) (i now : ℕ) :
    updateLandmark db i none none none none none now = (false, db) := rfl

/-- Helper: dropping later duplicate geometries never lengthens the
list. -/
theorem dropDupGeoms_length_le :
    ∀ (seen : List (Option GeomVal)) (l : List RawFeature),
      (dropDupGeoms seen l).length ≤ l.length := by
  intro seen l
  induction l generalizing seen with
  | nil => simp [dropDupGeoms]
  | cons f rest ih =>
    rw [dropDupGeoms]
    split_ifs with hmem
    · exact le_trans (ih seen) (by simp)
    · simpa using ih (f.geom :: seen)

/-- **C10.** `clean_data` never increases the number of features: the
cleaned collection is at most as long as the input, the report's
`final_count` equals the output feature count, and `original_count`
equals the input feature count. -/
theorem cleanData_counts (fs : List RawFeature) :
    (cleanData fs).1.length ≤ fs.length ∧
    (cleanData fs).2.final_count = (cleanData fs).1.length ∧
    (cleanData fs).2.original_count = fs.length := by
  refine ⟨?_, rfl, rfl⟩
  show (List.map cleanAttrs (dropDupGeoms [] _)).length ≤ fs.length
  rw [List.length_map]
  calc (dropDupGeoms []
          ((fs.filter (fun f => !geomNaOrEmpty f)).map _)).length
      ≤ ((fs.filter (fun f => !geomNaOrEmpty f)).map _).length :=
        dropDupGeoms_length_le _ _
    _ = (fs.filter (fun f => !geomNaOrEmpty f)).length :=
        List.length_map _ _
    _ ≤ fs.length := List.length_filter_le _ _

/-- Counting label matches through the feature–label zip: with one label
per row, the members of a cluster are as many as the label's
occurrences. -/
theorem length_filter_zip_eq_count (cid : ℤ) :
    ∀ (labels : List ℤ) (fs : List Feature), labels.length = fs.length →
      ((fs.zip labels).filter (fun r => r.2 = cid)).length =
        labels.count cid := by
  intro labels
  induction labels with
  | nil =>
    intro fs _
    simp
  | cons x ls ih =>
    intro fs h
    cases fs with
    | nil => simp at h
    | cons f fs' =>
      simp only [List.zip_cons_cons, List.filter_cons, List.count_cons,
        List.length_cons] at h ⊢
      have hrec := ih fs' (by omega)
      by_cases hx : x = cid
      · simp [hx, hrec]
      · simp [hx, hrec]

/-- **C7.** For every feature collection, label vector (one label per
feature) and method name, the per-cluster statistics of
`spatial_clustering` contain no entry for the noise label `-1`; every
reported cluster's `count` equals the number of features assigned that
label and its `landmarks` list is exactly those features' names; and
every non-noise label that occurs is reported. -/
theorem spatialClustering_stats_correct (fs : List Feature)
    (labels : List ℤ) (method : String)
    (hlen : labels.length = fs.length) :
    (∀ e ∈ (spatialClusteringStats fs labels method).cluster_stats,
      e.1 ≠ -1) ∧
    (∀ e ∈ (spatialClusteringStats fs labels method).cluster_stats,
      e.2.count = labels.count e.1 ∧
      e.2.landmarks = ((fs.zip labels).filter (fun r => r.2 = e.1)).map
        (fun r => r.1.name)) ∧
    (∀ cid ∈ labels, cid ≠ -1 →
      ∃ e ∈ (spatialClusteringStats fs labels method).cluster_stats,
        e.1 = cid) := by
  refine ⟨?_, ?_, ?_⟩
  · intro e he
    obtain ⟨cid, _, hg⟩ := List.mem_filterMap.mp he
    by_cases hc : cid = -1
    · rw [if_pos hc] at hg
      cases hg
    · rw [if_neg hc] at hg
      simp only [Option.some.injEq] at hg
      rw [← hg]
      exact hc
  · intro e he
    obtain ⟨cid, _, hg⟩ := List.mem_filterMap.mp he
    by_cases hc : cid = -1
    · rw [if_pos hc] at hg
      cases hg
    · rw [if_neg hc] at hg
      simp only [Option.some.injEq] at hg
      subst hg
      constructor
      · show (((fs.zip labels).filter (fun r => r.2 = cid)).map (·.1)).length
          = labels.count cid
        rw [List.length_map]
        exact length_filter_zip_eq_count cid labels fs hlen
      · show (((fs.zip labels).filter (fun r => r.2 = cid)).map (·.1)).map
            (·.name) = _
        rw [List.map_map]
        rfl
  · intro cid hcid hne
    refine ⟨(cid, clusterStatFor fs labels cid),
      List.mem_filterMap.mpr ⟨cid, ?_, ?_⟩, rfl⟩
    · exact ((List.mergeSort_perm _ _).mem_iff).mpr
        (List.mem_dedup.mpr hcid)
    · rw [if_neg hne]

/-- Witness for C7: two features, labels `[0, -1]` (one clustered point
and one DBSCAN noise point). -/
theorem spatialClustering_stats_correct_witness :
    ([0, -1] : List ℤ).length = [witF0, witF1].length ∧
    ((∀ e ∈ (spatialClusteringStats [witF0, witF1] [0, -1]
        "dbscan").cluster_stats, e.1 ≠ -1) ∧
    (∀ e ∈ (spatialClusteringStats [witF0, witF1] [0, -1]
        "dbscan").cluster_stats,
      e.2.count = ([0, -1] : List ℤ).count e.1 ∧
      e.2.landmarks = (([witF0, witF1].zip ([0, -1] : List ℤ)).filter
        (fun r => r.2 = e.1)).map (fun r => r.1.name)) ∧
    (∀ cid ∈ ([0, -1] : List ℤ), cid ≠ -1 →
      ∃ e ∈ (spatialClusteringStats [witF0, witF1] [0, -1]
        "dbscan").cluster_stats, e.1 = cid)) :=
  ⟨rfl, spatialClustering_stats_correct [witF0, witF1] [0, -1] "dbscan" rfl⟩
